import Mathlib

/-!
Verification development for `stream_proxy.py` (iframelive/iframe-web).

The program is a small Flask service with two POST endpoints.  We embed it
shallowly: the Selenium driver is modelled by a `DriverEnv` record giving the
outcome of each fallible browser call, the handlers become pure functions from
the request (method plus `request.get_json()` outcome) to a JSON response and
an HTTP status, and each browser call emits an event into a trace so that
ordering and resource-release properties can be stated.
-/

set_option autoImplicit false

namespace StreamProxy

/-- Configured element/page timeout in seconds (`TIMEOUT = 20`). -/
def TIMEOUT : Nat := 20

/-- Configured driver path (`CHROMEDRIVER_PATH`). -/
def CHROMEDRIVER_PATH : String := "C:\\chromedriver\\chromedriver.exe"

/-- Python values as they arise from parsing a JSON request body. -/
inductive PyVal where
  | pnone
  | pstr (s : String)
  | pint (n : Int)
  | pbool (b : Bool)
  | plist (xs : List PyVal)
  | pdict (fields : List (String × PyVal))

/-- Python truthiness (`if not iframe_url:` tests falsiness). -/
def pyTruthy : PyVal → Bool
  | .pnone => false
  | .pstr s => !s.isEmpty
  | .pint n => n != 0
  | .pbool b => b
  | .plist xs => !xs.isEmpty
  | .pdict f => !f.isEmpty

/-- Whether a parsed body is a JSON object (Python `dict`). -/
def isDictVal : PyVal → Bool
  | .pdict _ => true
  | _ => false

/-- First binding of `key` in a field list. -/
def lookupField : List (String × PyVal) → String → Option PyVal
  | [], _ => none
  | (k, v) :: rest, key => if k = key then some v else lookupField rest key

/-- Error message raised when `.get` is called on a non-dict value. -/
def attrGetError : String := "AttributeError: object has no attribute get"

/-- `data.get(key)`: succeeds (with `None` default) on a dict, raises
`AttributeError` on any other Python value, including `None` from a null
body. -/
def pyGet (data : PyVal) (key : String) : Except String PyVal :=
  match data with
  | .pdict fields => .ok ((lookupField fields key).getD .pnone)
  | _ => .error attrGetError

/-- Events emitted by browser-automation calls, in program order. -/
inductive Ev where
  | acquireDriver
  | navigate (url : PyVal)
  | setPageLoadTimeout (t : Nat)
  | waitFor (tag : String) (t : Nat)
  | findElement (tag : String)
  | switchToFrame
  | switchToDefault
  | getAttribute (attr : String)
  | findElements (tag : String)
  | quit

/-- Outcomes of the fallible Selenium calls made by the program.  A field is
`Except String Unit` when the corresponding call either succeeds or raises;
attribute reads yield `Option String` (`None` or a string, per
`get_attribute`). -/
structure DriverEnv where
  acquire : Except String Unit
  navigate : Except String Unit
  waitIframe : Except String Unit
  findIframe : Except String Unit
  switchFrame : Except String Unit
  waitVideo : Except String Unit
  frameVideoSrc : Option String
  findVideoTop : Except String Unit
  topVideoSrc : Option String
  scripts : List String

/-- `pat` begins `s` (on character lists). -/
def charsStart : List Char → List Char → Bool
  | [], _ => true
  | _ :: _, [] => false
  | p :: ps, c :: cs => p == c && charsStart ps cs

/-- `pat` occurs somewhere in `s` (on character lists). -/
def charsHas (pat : List Char) : List Char → Bool
  | [] => pat.isEmpty
  | c :: rest => charsStart pat (c :: rest) || charsHas pat rest

/-- Python `pat in s` substring test. -/
def strHas (pat s : String) : Bool := charsHas pat.toList s.toList

/-- The script loop (lines 100-105): return the innerHTML of the first script
containing both `http` and `.m3u8`. -/
def scanScripts : List String → Option String
  | [] => none
  | content :: rest =>
    if strHas "http" content && strHas ".m3u8" content then some content
    else scanScripts rest

/-- Outcome of a Python `try` block body: a `return` fired, the block fell
through to the code after it, or an exception is propagating. -/
inductive TryOut where
  | ret (url : String)
  | fall
  | raised (e : String)

/-- The inner `try` body (lines 69-83): find the iframe element, switch into
it, wait for a video element, read its `src`; return it when truthy. -/
def nestedVideoTry (env : DriverEnv) : TryOut × List Ev :=
  match env.findIframe with
  | .error e => (.raised e, [.findElement "iframe"])
  | .ok _ =>
    match env.switchFrame with
    | .error e => (.raised e, [.findElement "iframe", .switchToFrame])
    | .ok _ =>
      match env.waitVideo with
      | .error e =>
        (.raised e, [.findElement "iframe", .switchToFrame, .waitFor "video" TIMEOUT])
      | .ok _ =>
        match env.frameVideoSrc with
        | some s =>
          if s.isEmpty then
            (.fall, [.findElement "iframe", .switchToFrame, .waitFor "video" TIMEOUT,
                     .getAttribute "src"])
          else
            (.ret s, [.findElement "iframe", .switchToFrame, .waitFor "video" TIMEOUT,
                      .getAttribute "src"])
        | none =>
          (.fall, [.findElement "iframe", .switchToFrame, .waitFor "video" TIMEOUT,
                   .getAttribute "src"])

/-- The `except` branch (lines 84-94): switch back to the top document, find a
video element directly (an exception here propagates), read its `src`; return
it when truthy. -/
def directVideoExcept (env : DriverEnv) : TryOut × List Ev :=
  match env.findVideoTop with
  | .error e => (.raised e, [.switchToDefault, .findElement "video"])
  | .ok _ =>
    match env.topVideoSrc with
    | some s =>
      if s.isEmpty then (.fall, [.switchToDefault, .findElement "video", .getAttribute "src"])
      else (.ret s, [.switchToDefault, .findElement "video", .getAttribute "src"])
    | none => (.fall, [.switchToDefault, .findElement "video", .getAttribute "src"])

/-- `extract_video_from_iframe` (lines 55-111): navigate, set the page-load
timeout, wait for an iframe, run the inner try / except, and on fall-through
scan the scripts; the outer `except` re-raises, so exceptions escape as
`.error`. -/
def extract_video_from_iframe (env : DriverEnv) (iframe_url : PyVal) :
    Except String (Option String) × List Ev :=
  match env.navigate with
  | .error e => (.error e, [.navigate iframe_url])
  | .ok _ =>
    match env.waitIframe with
    | .error e =>
      (.error e, [.navigate iframe_url, .setPageLoadTimeout TIMEOUT, .waitFor "iframe" TIMEOUT])
    | .ok _ =>
      match nestedVideoTry env with
      | (.ret s, tr1) =>
        (.ok (some s),
         [.navigate iframe_url, .setPageLoadTimeout TIMEOUT, .waitFor "iframe" TIMEOUT] ++ tr1)
      | (.fall, tr1) =>
        (.ok (scanScripts env.scripts),
         [.navigate iframe_url, .setPageLoadTimeout TIMEOUT, .waitFor "iframe" TIMEOUT]
           ++ tr1 ++ [.findElements "script"])
      | (.raised _, tr1) =>
        match directVideoExcept env with
        | (.ret s, tr2) =>
          (.ok (some s),
           [.navigate iframe_url, .setPageLoadTimeout TIMEOUT, .waitFor "iframe" TIMEOUT]
             ++ tr1 ++ tr2)
        | (.fall, tr2) =>
          (.ok (scanScripts env.scripts),
           [.navigate iframe_url, .setPageLoadTimeout TIMEOUT, .waitFor "iframe" TIMEOUT]
             ++ tr1 ++ tr2 ++ [.findElements "script"])
        | (.raised e, tr2) =>
          (.error e,
           [.navigate iframe_url, .setPageLoadTimeout TIMEOUT, .waitFor "iframe" TIMEOUT]
             ++ tr1 ++ tr2)

/-- A JSON response body (ordered fields) together with the HTTP status. -/
structure HttpResponse where
  body : List (String × PyVal)
  status : Nat

/-- An incoming request: the method and the outcome of `request.get_json()`
(`.error` when the body is absent or unparseable and Flask raises). -/
structure HttpRequest where
  method : String
  getJson : Except String PyVal

/-- The body of the outer `try` of `extract_stream` (lines 143-175): read the
JSON, get `url`, 400 when falsy, otherwise acquire a driver, extract, and
answer 200/404; the `finally` quits the driver whenever one was acquired.
`.error` is an exception propagating to the handler's `except`. -/
def extract_stream_try (env : DriverEnv) (getJson : Except String PyVal) :
    Except String HttpResponse × List Ev :=
  match getJson with
  | .error e => (.error e, [])
  | .ok data =>
    match pyGet data "url" with
    | .error e => (.error e, [])
    | .ok iframe_url =>
      if !pyTruthy iframe_url then
        (.ok ⟨[("error", .pstr "URL requerida"), ("success", .pbool false)], 400⟩, [])
      else
        match env.acquire with
        | .error e => (.error e, [.acquireDriver])
        | .ok _ =>
          match extract_video_from_iframe env iframe_url with
          | (.ok (some video_url), tr) =>
            (.ok ⟨[("success", .pbool true), ("video_url", .pstr video_url),
                   ("message", .pstr "Stream extraído exitosamente")], 200⟩,
             .acquireDriver :: tr ++ [.quit])
          | (.ok none, tr) =>
            (.ok ⟨[("success", .pbool false),
                   ("error", .pstr "No se encontró URL de video en el iframe")], 404⟩,
             .acquireDriver :: tr ++ [.quit])
          | (.error e, tr) => (.error e, .acquireDriver :: tr ++ [.quit])

/-- The `extract_stream` handler (lines 123-182): OPTIONS short-circuits to an
empty 200; otherwise run the try body and convert any exception to the
`success:false` / `error` 500 shape. -/
def extract_stream (env : DriverEnv) (req : HttpRequest) : HttpResponse × List Ev :=
  if req.method = "OPTIONS" then (⟨[], 200⟩, [])
  else
    match extract_stream_try env req.getJson with
    | (.ok resp, tr) => (resp, tr)
    | (.error e, tr) => (⟨[("success", .pbool false), ("error", .pstr e)], 500⟩, tr)

/-- The body of the outer `try` of `proxy_iframe` (lines 197-209). -/
def proxy_iframe_try (getJson : Except String PyVal) : Except String HttpResponse :=
  match getJson with
  | .error e => .error e
  | .ok data =>
    match pyGet data "url" with
    | .error e => .error e
    | .ok iframe_url =>
      if !pyTruthy iframe_url then
        .ok ⟨[("error", .pstr "URL requerida"), ("success", .pbool false)], 400⟩
      else
        .ok ⟨[("success", .pbool true), ("iframe_url", iframe_url),
              ("message", .pstr "URL lista para embeber")], 200⟩

/-- The `proxy_iframe` handler (lines 184-213). -/
def proxy_iframe (req : HttpRequest) : HttpResponse :=
  if req.method = "OPTIONS" then ⟨[], 200⟩
  else
    match proxy_iframe_try req.getJson with
    | .ok resp => resp
    | .error e => ⟨[("error", .pstr e), ("success", .pbool false)], 500⟩

/-- The server handling a sequence of independent requests: the code keeps no
module-level mutable state, so each response is a function of its own request
(and its own driver environment) only. -/
def serve (reqs : List (DriverEnv × HttpRequest)) : List (HttpResponse × List Ev) :=
  reqs.map fun p => extract_stream p.1 p.2

/-- The server handling a sequence of `/api/proxy-iframe` requests; as with
`serve`, the code keeps no module-level mutable state, so each response
depends only on its own request. -/
def serveProxy (reqs : List HttpRequest) : List HttpResponse :=
  reqs.map proxy_iframe

/-- A POST request whose JSON body is the object with a single `url` field. -/
def reqUrl (u : String) : HttpRequest :=
  ⟨"POST", .ok (.pdict [("url", .pstr u)])⟩

/-- Spec-side predicate, for the refinement claim about `video_url`: a URL
string begins with an http scheme and contains no space. -/
def isUrlString (s : String) : Bool :=
  (charsStart "http://".toList s.toList || charsStart "https://".toList s.toList)
    && !(strHas " " s)

/-- An environment in which every browser call succeeds and the video inside
the nested frame has a playable `src`. -/
def envAllOk : DriverEnv :=
  { acquire := .ok (), navigate := .ok (), waitIframe := .ok (),
    findIframe := .ok (), switchFrame := .ok (), waitVideo := .ok (),
    frameVideoSrc := some "https://cdn.example/video.m3u8",
    findVideoTop := .ok (), topVideoSrc := some "https://cdn.example/direct.mp4",
    scripts := [] }

/-- An environment in which the nested-frame lookup raises, the top-level
video lookup also raises, and a script holds an m3u8 reference. -/
def envC4 : DriverEnv :=
  { envAllOk with
    findIframe := .error "no such element: iframe",
    findVideoTop := .error "no such element: video",
    scripts := ["var a = 1; http://cdn.example/live.m3u8 fin"] }

/-- An environment in which the nested video element exists but its `src` is
empty, so the code falls through to the script scan. -/
def envC6 : DriverEnv :=
  { envAllOk with
    frameVideoSrc := some "",
    scripts := ["var player; http://cdn.example/live.m3u8 fin"] }

/-- An environment in which the nested lookup raises, the top-level video has
an empty `src`, and a script holds an m3u8 reference. -/
def envScriptFall : DriverEnv :=
  { envAllOk with
    findIframe := .error "no such element: iframe",
    topVideoSrc := some "",
    scripts := ["x http://a.example/b.m3u8"] }

/-! ## Helper lemmas -/

/-- A matching script returned by the scan is one of the scripts and contains
both `http` and `.m3u8`. -/
theorem scanScripts_mem (l : List String) (c : String) (h : scanScripts l = some c) :
    c ∈ l ∧ strHas "http" c = true ∧ strHas ".m3u8" c = true := by
  induction l with
  | nil => simp [scanScripts] at h
  | cons x xs ih =>
    unfold scanScripts at h
    split at h
    · rename_i hcond
      simp only [Option.some.injEq] at h
      subst h
      simp only [Bool.and_eq_true] at hcond
      exact ⟨List.mem_cons_self x xs, hcond.1, hcond.2⟩
    · have hx := ih h
      exact ⟨List.mem_cons_of_mem _ hx.1, hx.2⟩

/-- A `return` from the inner try carries the nested video element's `src`. -/
theorem nestedVideoTry_ret (env : DriverEnv) (s : String)
    (h : (nestedVideoTry env).1 = .ret s) : env.frameVideoSrc = some s := by
  unfold nestedVideoTry at h
  split at h
  · simp at h
  · split at h
    · simp at h
    · split at h
      · simp at h
      · split at h
        · split at h
          · simp at h
          · rename_i heq _
            simp only [TryOut.ret.injEq] at h
            subst h
            exact heq
        · simp at h

/-- A `return` from the `except` branch carries the top-level video's `src`. -/
theorem directVideoExcept_ret (env : DriverEnv) (s : String)
    (h : (directVideoExcept env).1 = .ret s) : env.topVideoSrc = some s := by
  unfold directVideoExcept at h
  split at h
  · simp at h
  · split at h
    · split at h
      · simp at h
      · rename_i heq _
        simp only [TryOut.ret.injEq] at h
        subst h
        exact heq
    · simp at h

/-- Every normal (non-exception) return from the try body of `proxy_iframe`
has status 200 or 400. -/
theorem proxy_iframe_try_ok_status (gj : Except String PyVal) (r : HttpResponse)
    (h : proxy_iframe_try gj = .ok r) : r.status = 200 ∨ r.status = 400 := by
  unfold proxy_iframe_try at h
  split at h
  · simp at h
  · split at h
    · simp at h
    · split at h
      · simp only [Except.ok.injEq] at h
        rw [← h]
        right; rfl
      · simp only [Except.ok.injEq] at h
        rw [← h]
        left; rfl

/-- Every normal (non-exception) return from the try body of `extract_stream`
has status 200, 400 or 404. -/
theorem extract_stream_try_ok_status (env : DriverEnv) (gj : Except String PyVal)
    (r : HttpResponse) (tr : List Ev) (h : extract_stream_try env gj = (.ok r, tr)) :
    r.status = 200 ∨ r.status = 400 ∨ r.status = 404 := by
  unfold extract_stream_try at h
  split at h
  · simp at h
  · split at h
    · simp at h
    · split at h
      · simp only [Prod.mk.injEq, Except.ok.injEq] at h
        rw [← h.1]
        right; left; rfl
      · split at h
        · simp at h
        · split at h
          · simp only [Prod.mk.injEq, Except.ok.injEq] at h
            rw [← h.1]
            left; rfl
          · simp only [Prod.mk.injEq, Except.ok.injEq] at h
            rw [← h.1]
            right; right; rfl
          · simp at h

/-! ## Claims -/

/-- C7: for every OPTIONS request to a POST route (`/api/extract-stream` and
`/api/proxy-iframe`), the response has status 200 and an empty body (the
serialization of the empty JSON object `jsonify({})`). -/
theorem options_empty_200 (env : DriverEnv) (req : HttpRequest)
    (h : req.method = "OPTIONS") :
    extract_stream env req = (⟨[], 200⟩, []) ∧ proxy_iframe req = ⟨[], 200⟩ := by
  constructor
  · simp [extract_stream, h]
  · simp [proxy_iframe, h]

/-- Witness for C7 at a concrete OPTIONS request. -/
theorem options_empty_200_witness :
    extract_stream envAllOk ⟨"OPTIONS", .error "no body"⟩ = (⟨[], 200⟩, []) ∧
    proxy_iframe ⟨"OPTIONS", .error "no body"⟩ = ⟨[], 200⟩ :=
  options_empty_200 envAllOk ⟨"OPTIONS", .error "no body"⟩ rfl

/-- C8: for every POST `/api/proxy-iframe` request whose JSON body holds a
non-empty `url` string, the 200 response's `iframe_url` field is exactly the
input string: the operation is the identity on the URL. -/
theorem proxy_iframe_identity (flds : List (String × PyVal)) (u : String)
    (hu : lookupField flds "url" = some (.pstr u)) (hne : u.isEmpty = false) :
    proxy_iframe ⟨"POST", .ok (.pdict flds)⟩ =
      ⟨[("success", .pbool true), ("iframe_url", .pstr u),
        ("message", .pstr "URL lista para embeber")], 200⟩ := by
  simp [proxy_iframe, proxy_iframe_try, pyGet, hu, pyTruthy, hne]

/-- Witness for C8 at a concrete body. -/
theorem proxy_iframe_identity_witness :
    proxy_iframe ⟨"POST", .ok (.pdict [("url", .pstr "https://site.example/embed")])⟩ =
      ⟨[("success", .pbool true), ("iframe_url", .pstr "https://site.example/embed"),
        ("message", .pstr "URL lista para embeber")], 200⟩ :=
  proxy_iframe_identity [("url", .pstr "https://site.example/embed")]
    "https://site.example/embed" rfl rfl

/-- C10: a body whose `url` equals the empty string is treated as a missing
URL by both POST handlers: the check is on falsiness, and the response is the
`error` / `success:false` shape with status 400. -/
theorem empty_url_400 (env : DriverEnv) (flds : List (String × PyVal))
    (hu : lookupField flds "url" = some (.pstr "")) :
    (extract_stream env ⟨"POST", .ok (.pdict flds)⟩).1 =
      ⟨[("error", .pstr "URL requerida"), ("success", .pbool false)], 400⟩ ∧
    proxy_iframe ⟨"POST", .ok (.pdict flds)⟩ =
      ⟨[("error", .pstr "URL requerida"), ("success", .pbool false)], 400⟩ := by
  have h0 : ("" : String).isEmpty = true := rfl
  constructor
  · simp [extract_stream, extract_stream_try, pyGet, hu, pyTruthy, h0]
  · simp [proxy_iframe, proxy_iframe_try, pyGet, hu, pyTruthy, h0]

/-- Witness for C10 at a concrete body with an empty `url`. -/
theorem empty_url_400_witness :
    (extract_stream envAllOk ⟨"POST", .ok (.pdict [("url", .pstr "")])⟩).1 =
      ⟨[("error", .pstr "URL requerida"), ("success", .pbool false)], 400⟩ ∧
    proxy_iframe ⟨"POST", .ok (.pdict [("url", .pstr "")])⟩ =
      ⟨[("error", .pstr "URL requerida"), ("success", .pbool false)], 400⟩ :=
  empty_url_400 envAllOk [("url", .pstr "")] rfl

/-- C9: a POST whose body is absent/unparseable (`get_json` raises) or parses
to a non-object lands in the internal-failure branch of both handlers: the
`AttributeError` from `.get` on a non-dict is caught and answered with the
error shape and status 500, not with the 400 missing-URL branch. -/
theorem non_object_body_500 (env : DriverEnv) (e : String) (v : PyVal)
    (hv : isDictVal v = false) :
    (extract_stream env ⟨"POST", .error e⟩).1 =
      ⟨[("success", .pbool false), ("error", .pstr e)], 500⟩ ∧
    proxy_iframe ⟨"POST", .error e⟩ =
      ⟨[("error", .pstr e), ("success", .pbool false)], 500⟩ ∧
    (extract_stream env ⟨"POST", .ok v⟩).1 =
      ⟨[("success", .pbool false), ("error", .pstr attrGetError)], 500⟩ ∧
    proxy_iframe ⟨"POST", .ok v⟩ =
      ⟨[("error", .pstr attrGetError), ("success", .pbool false)], 500⟩ := by
  have hget : pyGet v "url" = .error attrGetError := by
    cases v <;> simp_all [pyGet, isDictVal]
  refine ⟨?_, ?_, ?_, ?_⟩
  · simp [extract_stream, extract_stream_try]
  · simp [proxy_iframe, proxy_iframe_try]
  · simp [extract_stream, extract_stream_try, hget]
  · simp [proxy_iframe, proxy_iframe_try, hget]

/-- Witness for C9 at a missing body and at an array body. -/
theorem non_object_body_500_witness :
    (extract_stream envAllOk ⟨"POST", .error "BadRequest"⟩).1 =
      ⟨[("success", .pbool false), ("error", .pstr "BadRequest")], 500⟩ ∧
    proxy_iframe ⟨"POST", .error "BadRequest"⟩ =
      ⟨[("error", .pstr "BadRequest"), ("success", .pbool false)], 500⟩ ∧
    (extract_stream envAllOk ⟨"POST", .ok (.plist [])⟩).1 =
      ⟨[("success", .pbool false), ("error", .pstr attrGetError)], 500⟩ ∧
    proxy_iframe ⟨"POST", .ok (.plist [])⟩ =
      ⟨[("error", .pstr attrGetError), ("success", .pbool false)], 500⟩ :=
  non_object_body_500 envAllOk "BadRequest" (.plist []) rfl

/-- C1: the POST `/api/extract-stream` contract: with a `url` in the body,
a successful extraction answers `success:true`/`video_url`/`message` with 200;
a missing `url` answers the `error`/`success:false` shape with 400; an
extraction that finds nothing answers 404; an extraction that raises answers
500. -/
theorem extract_stream_contract (env : DriverEnv) (flds : List (String × PyVal))
    (u : String) (hu : lookupField flds "url" = some (.pstr u)) (hne : u.isEmpty = false) :
    (∀ v, env.acquire = .ok () →
        (extract_video_from_iframe env (.pstr u)).1 = .ok (some v) →
        (extract_stream env ⟨"POST", .ok (.pdict flds)⟩).1 =
          ⟨[("success", .pbool true), ("video_url", .pstr v),
            ("message", .pstr "Stream extraído exitosamente")], 200⟩) ∧
    (∀ flds2 : List (String × PyVal), lookupField flds2 "url" = none →
        (extract_stream env ⟨"POST", .ok (.pdict flds2)⟩).1 =
          ⟨[("error", .pstr "URL requerida"), ("success", .pbool false)], 400⟩) ∧
    (env.acquire = .ok () →
        (extract_video_from_iframe env (.pstr u)).1 = .ok none →
        (extract_stream env ⟨"POST", .ok (.pdict flds)⟩).1 =
          ⟨[("success", .pbool false),
            ("error", .pstr "No se encontró URL de video en el iframe")], 404⟩) ∧
    (∀ e, env.acquire = .ok () →
        (extract_video_from_iframe env (.pstr u)).1 = .error e →
        (extract_stream env ⟨"POST", .ok (.pdict flds)⟩).1 =
          ⟨[("success", .pbool false), ("error", .pstr e)], 500⟩) := by
  have hget : pyGet (.pdict flds) "url" = .ok (.pstr u) := by simp [pyGet, hu]
  have htru : pyTruthy (.pstr u) = true := by simp [pyTruthy, hne]
  refine ⟨?_, ?_, ?_, ?_⟩
  · intro v hacq hres
    rcases hE : extract_video_from_iframe env (.pstr u) with ⟨res, tr⟩
    rw [hE] at hres
    simp only at hres
    subst hres
    simp [extract_stream, extract_stream_try, hget, htru, hacq, hE]
  · intro flds2 h2
    simp [extract_stream, extract_stream_try, pyGet, h2, pyTruthy]
  · intro hacq hres
    rcases hE : extract_video_from_iframe env (.pstr u) with ⟨res, tr⟩
    rw [hE] at hres
    simp only at hres
    subst hres
    simp [extract_stream, extract_stream_try, hget, htru, hacq, hE]
  · intro e hacq hres
    rcases hE : extract_video_from_iframe env (.pstr u) with ⟨res, tr⟩
    rw [hE] at hres
    simp only at hres
    subst hres
    simp [extract_stream, extract_stream_try, hget, htru, hacq, hE]

/-- Witness for C1 at a fully successful concrete request. -/
theorem extract_stream_contract_witness :
    (extract_stream envAllOk
        ⟨"POST", .ok (.pdict [("url", .pstr "http://page.example/stream")])⟩).1 =
      ⟨[("success", .pbool true), ("video_url", .pstr "https://cdn.example/video.m3u8"),
        ("message", .pstr "Stream extraído exitosamente")], 200⟩ :=
  (extract_stream_contract envAllOk [("url", .pstr "http://page.example/stream")]
      "http://page.example/stream" rfl rfl).1 "https://cdn.example/video.m3u8" rfl rfl

/-- C3: every request that acquires a browser instance releases it: whenever
the handler reaches `get_chrome_driver` successfully, the event trace ends
with `quit` — on the success, not-found and exception paths alike (the
`finally` block). -/
theorem driver_quit_on_all_paths (env : DriverEnv) (flds : List (String × PyVal))
    (u : PyVal) (hu : lookupField flds "url" = some u) (htru : pyTruthy u = true)
    (hacq : env.acquire = .ok ()) :
    (extract_stream env ⟨"POST", .ok (.pdict flds)⟩).2.getLast? = some .quit := by
  have hget : pyGet (.pdict flds) "url" = .ok u := by simp [pyGet, hu]
  rcases hE : extract_video_from_iframe env u with ⟨res, tr⟩
  have hmain : (extract_stream env ⟨"POST", .ok (.pdict flds)⟩).2 =
      .acquireDriver :: tr ++ [.quit] := by
    rcases res with e | ov
    · simp [extract_stream, extract_stream_try, hget, htru, hacq, hE]
    · rcases ov with _ | v
      · simp [extract_stream, extract_stream_try, hget, htru, hacq, hE]
      · simp [extract_stream, extract_stream_try, hget, htru, hacq, hE]
  rw [hmain]
  show ((Ev.acquireDriver :: tr) ++ [Ev.quit]).getLast? = some Ev.quit
  rw [List.getLast?_append_cons]
  rfl

/-- Witness for C3 at a concrete successful request. -/
theorem driver_quit_on_all_paths_witness :
    (extract_stream envAllOk
        ⟨"POST", .ok (.pdict [("url", .pstr "http://page.example/stream")])⟩).2.getLast? =
      some .quit :=
  driver_quit_on_all_paths envAllOk [("url", .pstr "http://page.example/stream")]
    (.pstr "http://page.example/stream") rfl rfl rfl

/-- C5: every failure raised inside the POST `/api/extract-stream` and
`/api/proxy-iframe` handlers is caught at the handler boundary: the status is
always one of 200/400/404/500 (200/400/500 for the proxy), any exception from
either try body becomes that handler's `error` 500 response, and a request's
response is independent of the other requests the server handles, on both
routes. -/
theorem handler_failures_contained (env : DriverEnv) (req : HttpRequest)
    (hm : req.method = "POST") :
    ((extract_stream env req).1.status = 200 ∨ (extract_stream env req).1.status = 400 ∨
     (extract_stream env req).1.status = 404 ∨ (extract_stream env req).1.status = 500) ∧
    (∀ e, (extract_stream_try env req.getJson).1 = .error e →
        (extract_stream env req).1 =
          ⟨[("success", .pbool false), ("error", .pstr e)], 500⟩) ∧
    (∀ pre post : List (DriverEnv × HttpRequest),
        serve (pre ++ (env, req) :: post) =
          serve pre ++ extract_stream env req :: serve post) ∧
    ((proxy_iframe req).status = 200 ∨ (proxy_iframe req).status = 400 ∨
     (proxy_iframe req).status = 500) ∧
    (∀ e, proxy_iframe_try req.getJson = .error e →
        proxy_iframe req = ⟨[("error", .pstr e), ("success", .pbool false)], 500⟩) ∧
    (∀ pre post : List HttpRequest,
        serveProxy (pre ++ req :: post) =
          serveProxy pre ++ proxy_iframe req :: serveProxy post) := by
  refine ⟨?_, ?_, ?_, ?_, ?_, ?_⟩
  · rcases hT : extract_stream_try env req.getJson with ⟨res, tr⟩
    rcases res with e | r
    · have hx : (extract_stream env req).1 =
          ⟨[("success", .pbool false), ("error", .pstr e)], 500⟩ := by
        simp [extract_stream, hm, hT]
      rw [hx]
      right; right; right; rfl
    · have hs := extract_stream_try_ok_status env req.getJson r tr hT
      have hx : (extract_stream env req).1 = r := by simp [extract_stream, hm, hT]
      rw [hx]
      rcases hs with h | h | h
      · exact .inl h
      · exact .inr (.inl h)
      · exact .inr (.inr (.inl h))
  · intro e he
    rcases hT : extract_stream_try env req.getJson with ⟨res, tr⟩
    rw [hT] at he
    simp only at he
    subst he
    simp [extract_stream, hm, hT]
  · intro pre post
    simp [serve]
  · rcases hP : proxy_iframe_try req.getJson with e | r
    · have hx : proxy_iframe req =
          ⟨[("error", .pstr e), ("success", .pbool false)], 500⟩ := by
        simp [proxy_iframe, hm, hP]
      rw [hx]
      right; right; rfl
    · have hs := proxy_iframe_try_ok_status req.getJson r hP
      have hx : proxy_iframe req = r := by simp [proxy_iframe, hm, hP]
      rw [hx]
      rcases hs with h | h
      · exact .inl h
      · exact .inr (.inl h)
  · intro e he
    simp [proxy_iframe, hm, he]
  · intro pre post
    simp [serveProxy]

/-- Witness for C5 at a request whose body parsing raises, on both routes. -/
theorem handler_failures_contained_witness :
    (extract_stream envAllOk ⟨"POST", .error "boom"⟩).1 =
      ⟨[("success", .pbool false), ("error", .pstr "boom")], 500⟩ ∧
    serve ([] ++ (envAllOk, ⟨"POST", .error "boom"⟩) :: []) =
      serve [] ++ extract_stream envAllOk ⟨"POST", .error "boom"⟩ :: serve [] ∧
    proxy_iframe ⟨"POST", .error "boom"⟩ =
      ⟨[("error", .pstr "boom"), ("success", .pbool false)], 500⟩ ∧
    serveProxy ([] ++ (⟨"POST", .error "boom"⟩ : HttpRequest) :: []) =
      serveProxy [] ++ proxy_iframe ⟨"POST", .error "boom"⟩ :: serveProxy [] := by
  have h := handler_failures_contained envAllOk ⟨"POST", .error "boom"⟩ rfl
  exact ⟨h.2.1 "boom" rfl, h.2.2.1 [] [], h.2.2.2.2.1 "boom" rfl, h.2.2.2.2.2 [] []⟩

/-- C2: the navigation event precedes the `setPageLoadTimeout` configuration
event in the trace — `driver.get` runs on line 59 and
`set_page_load_timeout(TIMEOUT)` only on line 60, so the (only) page load is
not governed by the configured timeout; when the navigation itself fails, the
timeout is never configured at all. -/
theorem navigate_precedes_timeout_config :
    (extract_video_from_iframe envAllOk (.pstr "http://page.example/stream")).2.take 2 =
      [.navigate (.pstr "http://page.example/stream"), .setPageLoadTimeout TIMEOUT] ∧
    (extract_video_from_iframe
        { envAllOk with navigate := .error "page load timed out" }
        (.pstr "http://page.example/stream")).2 =
      [.navigate (.pstr "http://page.example/stream")] :=
  ⟨rfl, rfl⟩

/-- C4 counterexample: when the nested-frame lookup raises and the top-level
video lookup also raises, the exception propagates (and the request answers
500) even though a script with an m3u8 reference is present — there is no
fall-back from a failed direct-video lookup to the script scan. -/
theorem fallback_chain_counterexample :
    (extract_video_from_iframe envC4 (.pstr "http://page.example/stream")).1 =
      .error "no such element: video" ∧
    scanScripts envC4.scripts = some "var a = 1; http://cdn.example/live.m3u8 fin" ∧
    (extract_stream envC4 (reqUrl "http://page.example/stream")).1.status = 500 :=
  ⟨rfl, rfl, rfl⟩

/-- C4 (amended): the sequence is navigate, wait for an iframe, then try the
nested-frame video; an exception there falls back to a top-level video read;
an exception in that read propagates with no script fallback; the script scan
runs only when a video element was read but its `src` was empty or missing,
and `None` is returned exactly when that scan matches nothing. -/
theorem fallback_chain_amended (env : DriverEnv) (u : PyVal)
    (hnav : env.navigate = .ok ()) (hwait : env.waitIframe = .ok ()) :
    (∀ s, env.findIframe = .ok () → env.switchFrame = .ok () → env.waitVideo = .ok () →
        env.frameVideoSrc = some s → s.isEmpty = false →
        (extract_video_from_iframe env u).1 = .ok (some s)) ∧
    (∀ e s, (nestedVideoTry env).1 = .raised e → env.findVideoTop = .ok () →
        env.topVideoSrc = some s → s.isEmpty = false →
        (extract_video_from_iframe env u).1 = .ok (some s)) ∧
    (∀ e e2, (nestedVideoTry env).1 = .raised e → env.findVideoTop = .error e2 →
        (extract_video_from_iframe env u).1 = .error e2) ∧
    ((nestedVideoTry env).1 = .fall →
        (extract_video_from_iframe env u).1 = .ok (scanScripts env.scripts)) ∧
    (∀ e, (nestedVideoTry env).1 = .raised e → (directVideoExcept env).1 = .fall →
        (extract_video_from_iframe env u).1 = .ok (scanScripts env.scripts)) := by
  refine ⟨?_, ?_, ?_, ?_, ?_⟩
  · intro s h1 h2 h3 h4 h5
    have h6 : nestedVideoTry env = (.ret s,
        [.findElement "iframe", .switchToFrame, .waitFor "video" TIMEOUT,
         .getAttribute "src"]) := by
      simp [nestedVideoTry, h1, h2, h3, h4, h5]
    simp [extract_video_from_iframe, hnav, hwait, h6]
  · intro e s hne hfv hts hse
    rcases hN : nestedVideoTry env with ⟨no, ntr⟩
    rw [hN] at hne
    simp only at hne
    subst hne
    have hD : directVideoExcept env = (.ret s,
        [.switchToDefault, .findElement "video", .getAttribute "src"]) := by
      simp [directVideoExcept, hfv, hts, hse]
    simp [extract_video_from_iframe, hnav, hwait, hN, hD]
  · intro e e2 hne hfv
    rcases hN : nestedVideoTry env with ⟨no, ntr⟩
    rw [hN] at hne
    simp only at hne
    subst hne
    have hD : directVideoExcept env = (.raised e2,
        [.switchToDefault, .findElement "video"]) := by
      simp [directVideoExcept, hfv]
    simp [extract_video_from_iframe, hnav, hwait, hN, hD]
  · intro hfall
    rcases hN : nestedVideoTry env with ⟨no, ntr⟩
    rw [hN] at hfall
    simp only at hfall
    subst hfall
    simp [extract_video_from_iframe, hnav, hwait, hN]
  · intro e hne hfall
    rcases hN : nestedVideoTry env with ⟨no, ntr⟩
    rcases hD : directVideoExcept env with ⟨dO, dtr⟩
    rw [hN] at hne
    simp only at hne
    subst hne
    rw [hD] at hfall
    simp only at hfall
    subst hfall
    simp [extract_video_from_iframe, hnav, hwait, hN, hD]

/-- Witness for the amended C4: nested lookup raises, top-level video has an
empty `src`, so the result is the script-scan outcome. -/
theorem fallback_chain_amended_witness :
    (extract_video_from_iframe envScriptFall (.pstr "http://page.example/stream")).1 =
      .ok (scanScripts envScriptFall.scripts) :=
  (fallback_chain_amended envScriptFall (.pstr "http://page.example/stream") rfl rfl).2.2.2.2
    "no such element: iframe" rfl rfl

/-- C6 counterexample: a successful 200 response whose `video_url` is the
whole innerHTML of a script (line 105 returns `content`), not a URL. -/
theorem video_url_not_url_counterexample :
    (extract_stream envC6 (reqUrl "http://page.example/stream")).1 =
      ⟨[("success", .pbool true),
        ("video_url", .pstr "var player; http://cdn.example/live.m3u8 fin"),
        ("message", .pstr "Stream extraído exitosamente")], 200⟩ ∧
    isUrlString "var player; http://cdn.example/live.m3u8 fin" = false :=
  ⟨rfl, rfl⟩

/-- C6 (amended): every value the extraction returns on success is either the
nested video element's `src`, the top-level video element's `src`, or the
entire text of some script containing `http` and `.m3u8` — only the first two
are element `src` URLs. -/
theorem success_value_characterization (env : DriverEnv) (u : PyVal) (v : String)
    (h : (extract_video_from_iframe env u).1 = .ok (some v)) :
    env.frameVideoSrc = some v ∨ env.topVideoSrc = some v ∨
      (v ∈ env.scripts ∧ strHas "http" v = true ∧ strHas ".m3u8" v = true) := by
  rcases hnav : env.navigate with e | u1
  · simp [extract_video_from_iframe, hnav] at h
  · rcases hwait : env.waitIframe with e | u2
    · simp [extract_video_from_iframe, hnav, hwait] at h
    · rcases hN : nestedVideoTry env with ⟨no, ntr⟩
      rcases no with s | _ | e3
      · simp [extract_video_from_iframe, hnav, hwait, hN] at h
        subst h
        exact .inl (nestedVideoTry_ret env _ (by rw [hN]))
      · simp [extract_video_from_iframe, hnav, hwait, hN] at h
        exact .inr (.inr (scanScripts_mem _ _ h))
      · rcases hD : directVideoExcept env with ⟨dO, dtr⟩
        rcases dO with s2 | _ | e4
        · simp [extract_video_from_iframe, hnav, hwait, hN, hD] at h
          subst h
          exact .inr (.inl (directVideoExcept_ret env _ (by rw [hD])))
        · simp [extract_video_from_iframe, hnav, hwait, hN, hD] at h
          exact .inr (.inr (scanScripts_mem _ _ h))
        · simp [extract_video_from_iframe, hnav, hwait, hN, hD] at h

/-- Witness for the amended C6 at a concrete successful nested extraction. -/
theorem success_value_characterization_witness :
    envAllOk.frameVideoSrc = some "https://cdn.example/video.m3u8" ∨
    envAllOk.topVideoSrc = some "https://cdn.example/video.m3u8" ∨
    ("https://cdn.example/video.m3u8" ∈ envAllOk.scripts ∧
     strHas "http" "https://cdn.example/video.m3u8" = true ∧
     strHas ".m3u8" "https://cdn.example/video.m3u8" = true) :=
  success_value_characterization envAllOk (.pstr "http://page.example/stream")
    "https://cdn.example/video.m3u8" rfl

end StreamProxy
